import Mathlib

/-!
Shallow embedding of `src/Main.py`: a FastAPI service storing sprite images,
audio clips and player scores in three MongoDB collections.

Bytes are modelled as `List Nat` with each element `< 256`.  The base64 codec
models Python's `base64.b64encode` / `base64.b64decode` (standard alphabet,
`=` padding, no line wrapping), restricted to the well-padded alphabet strings
that `b64encode` produces.  MongoDB `ObjectId(s)` construction from a string
accepts exactly 24 hexadecimal characters and otherwise raises
`bson.errors.InvalidId`; a raised exception that no handler catches is modelled
by the `Outcome.uncaught` constructor (FastAPI surfaces it as an
undifferentiated 500 server error), while `raise HTTPException(status, detail)`
is modelled by `Outcome.httpErr status detail`.
-/

namespace Main

/-- The value of the base64 alphabet at index `n` (`A-Z`, `a-z`, `0-9`, `+`, `/`),
as in Python's `base64.b64encode` standard alphabet. -/
def sextetToChar (n : Nat) : Char :=
  Char.ofNat
    (if n < 26 then 65 + n
     else if n < 52 then 71 + n
     else if n < 62 then n - 4
     else if n = 62 then 43
     else 47)

/-- Index of a character in the base64 alphabet (inverse of `sextetToChar` on
alphabet characters), as used by Python's `base64.b64decode`. -/
def charToSextet (c : Char) : Nat :=
  let n := c.toNat
  if 65 ≤ n ∧ n ≤ 90 then n - 65
  else if 97 ≤ n ∧ n ≤ 122 then n - 71
  else if 48 ≤ n ∧ n ≤ 57 then n + 4
  else if n = 43 then 62
  else 63

/-- Python `base64.b64encode`: three bytes become four alphabet characters,
a trailing group of one or two bytes is padded with `=`. -/
def b64encode : List Nat → List Char
  | [] => []
  | [a] => [sextetToChar (a / 4), sextetToChar (a % 4 * 16), '=', '=']
  | [a, b] => [sextetToChar (a / 4), sextetToChar (a % 4 * 16 + b / 16),
               sextetToChar (b % 16 * 4), '=']
  | a :: b :: c :: rest =>
      sextetToChar (a / 4) :: sextetToChar (a % 4 * 16 + b / 16) ::
      sextetToChar (b % 16 * 4 + c / 64) :: sextetToChar (c % 64) :: b64encode rest

/-- Python `base64.b64decode` on well-padded alphabet input: four characters
become three bytes, `=` padding cuts the last group to one or two bytes. -/
def b64decode : List Char → List Nat
  | c1 :: c2 :: c3 :: c4 :: rest =>
      let s1 := charToSextet c1
      let s2 := charToSextet c2
      if c3 = '=' then [s1 * 4 + s2 / 16]
      else
        let s3 := charToSextet c3
        if c4 = '=' then [s1 * 4 + s2 / 16, s2 % 16 * 16 + s3 / 4]
        else (s1 * 4 + s2 / 16) :: (s2 % 16 * 16 + s3 / 4) ::
             (s3 % 4 * 64 + charToSextet c4) :: b64decode rest
  | _ => []

/-- `base64.b64encode(content).decode("utf-8")` as used on line 31 of the
source: encode bytes and view the result as a string. -/
def b64encodeStr (b : List Nat) : String := String.mk (b64encode b)

/-- String-level decoding, inverse direction of `b64encodeStr`. -/
def b64decodeStr (s : String) : List Nat := b64decode s.data

lemma charToSextet_sextetToChar : ∀ n, n < 64 → charToSextet (sextetToChar n) = n := by
  decide

lemma sextetToChar_ne_pad : ∀ n, n < 64 → sextetToChar n ≠ '=' := by
  decide

theorem b64decode_b64encode : ∀ (b : List Nat), (∀ x ∈ b, x < 256) →
    b64decode (b64encode b) = b
  | [], _ => rfl
  | [a], h => by
      have ha : a < 256 := h a (by simp)
      have h1 := charToSextet_sextetToChar (a / 4) (by omega)
      have h2 := charToSextet_sextetToChar (a % 4 * 16) (by omega)
      simp only [b64encode, b64decode, h1, h2, if_pos]
      have e1 : a / 4 * 4 + a % 4 * 16 / 16 = a := by omega
      rw [e1]
  | [a, b], h => by
      have ha : a < 256 := h a (by simp)
      have hb : b < 256 := h b (by simp)
      have h1 := charToSextet_sextetToChar (a / 4) (by omega)
      have h2 := charToSextet_sextetToChar (a % 4 * 16 + b / 16) (by omega)
      have h3 := charToSextet_sextetToChar (b % 16 * 4) (by omega)
      have hne := sextetToChar_ne_pad (b % 16 * 4) (by omega)
      simp only [b64encode, b64decode, h1, h2, h3, if_neg hne, if_pos]
      have e1 : a / 4 * 4 + (a % 4 * 16 + b / 16) / 16 = a := by omega
      have e2 : (a % 4 * 16 + b / 16) % 16 * 16 + b % 16 * 4 / 4 = b := by omega
      rw [e1, e2]
  | a :: b :: c :: d :: rest, h => by
      have ha : a < 256 := h a (by simp)
      have hb : b < 256 := h b (by simp)
      have hc : c < 256 := h c (by simp)
      have h1 := charToSextet_sextetToChar (a / 4) (by omega)
      have h2 := charToSextet_sextetToChar (a % 4 * 16 + b / 16) (by omega)
      have h3 := charToSextet_sextetToChar (b % 16 * 4 + c / 64) (by omega)
      have h4 := charToSextet_sextetToChar (c % 64) (by omega)
      have hne3 := sextetToChar_ne_pad (b % 16 * 4 + c / 64) (by omega)
      have hne4 := sextetToChar_ne_pad (c % 64) (by omega)
      have ih := b64decode_b64encode (d :: rest) (fun x hx => h x (by simp at hx ⊢; tauto))
      simp only [b64encode, b64decode, h1, h2, h3, h4, if_neg hne3, if_neg hne4, ih]
      have e1 : a / 4 * 4 + (a % 4 * 16 + b / 16) / 16 = a := by omega
      have e2 : (a % 4 * 16 + b / 16) % 16 * 16 + (b % 16 * 4 + c / 64) / 4 = b := by omega
      have e3 : (b % 16 * 4 + c / 64) % 4 * 64 + c % 64 = c := by omega
      rw [e1, e2, e3]
  | [a, b, c], h => by
      have ha : a < 256 := h a (by simp)
      have hb : b < 256 := h b (by simp)
      have hc : c < 256 := h c (by simp)
      have h1 := charToSextet_sextetToChar (a / 4) (by omega)
      have h2 := charToSextet_sextetToChar (a % 4 * 16 + b / 16) (by omega)
      have h3 := charToSextet_sextetToChar (b % 16 * 4 + c / 64) (by omega)
      have h4 := charToSextet_sextetToChar (c % 64) (by omega)
      have hne3 := sextetToChar_ne_pad (b % 16 * 4 + c / 64) (by omega)
      have hne4 := sextetToChar_ne_pad (c % 64) (by omega)
      simp only [b64encode, b64decode, h1, h2, h3, h4, if_neg hne3, if_neg hne4]
      have e1 : a / 4 * 4 + (a % 4 * 16 + b / 16) / 16 = a := by omega
      have e2 : (a % 4 * 16 + b / 16) % 16 * 16 + (b % 16 * 4 + c / 64) / 4 = b := by omega
      have e3 : (b % 16 * 4 + c / 64) % 4 * 64 + c % 64 = c := by omega
      rw [e1, e2, e3]

/-- A character MongoDB's `ObjectId` string constructor accepts: a hexadecimal
digit in either case. -/
def isHexDigitChar (c : Char) : Bool :=
  ('0' ≤ c && c ≤ '9') || ('a' ≤ c && c ≤ 'f') || ('A' ≤ c && c ≤ 'F')

/-- `bson.ObjectId(s)` accepts exactly the strings of 24 hexadecimal
characters; any other string raises `bson.errors.InvalidId`. -/
def validObjectIdStr (s : String) : Bool :=
  s.length == 24 && s.data.all isHexDigitChar

/-- A MongoDB `ObjectId`, identified by its canonical (lower-case) 24-character
hexadecimal string, which is also what `str(oid)` returns. -/
structure ObjectId where
  hex : String
deriving DecidableEq, Repr

/-- Character-wise lower-casing of a string (what `str.lower()` does on
ASCII hex strings). -/
def lowerStr (s : String) : String := String.mk (s.data.map Char.toLower)

/-- `bson.ObjectId(s)` on a string: succeeds exactly on 24-hex-character
strings (normalising case, since `ObjectId` equality compares the underlying
bytes); `none` models the raised `bson.errors.InvalidId`. -/
def ObjectId.parse (s : String) : Option ObjectId :=
  if validObjectIdStr s then some ⟨lowerStr s⟩ else none

/-- An `ObjectId` as MongoDB generates them: canonical lower-case hex. -/
def ObjectId.wf (o : ObjectId) : Prop :=
  validObjectIdStr o.hex = true ∧ lowerStr o.hex = o.hex

/-- The document stored in the `sprites` and `audio` collections
(lines 32-36 and 46-50 of the source): filename, base64-encoded content,
declared MIME type.  MongoDB adds the `_id` key, modelled as the key of the
collection's association list. -/
structure AssetDoc where
  filename : String
  content_base64 : String
  content_type : String
deriving DecidableEq, Repr

/-- The `PlayerScore` pydantic model (lines 20-22): the document stored in the
`scores` collection is its `.dict()`. -/
structure ScoreDoc where
  player_name : String
  score : Int
deriving DecidableEq, Repr

/-- The database `DatabaseEssensials62A` with its three collections,
each an association list from `_id` to document. -/
structure DB where
  sprites : List (ObjectId × AssetDoc)
  audio : List (ObjectId × AssetDoc)
  scores : List (ObjectId × ScoreDoc)
deriving DecidableEq, Repr

def DB.empty : DB := ⟨[], [], []⟩

/-- `collection.find_one({"_id": oid})`: the first document with the given
`_id`, or `None`. -/
def findById {α : Type} (coll : List (ObjectId × α)) (i : ObjectId) : Option α :=
  (coll.find? (fun p => p.1 == i)).map Prod.snd

/-- `collection.update_one({"_id": oid}, {"$set": d})` where `d` assigns every
document field: replaces the first matching document and reports
`matched_count` (0 or 1). -/
def updateFirst {α : Type} : List (ObjectId × α) → ObjectId → α → Nat × List (ObjectId × α)
  | [], _, _ => (0, [])
  | p :: rest, i, d =>
      if p.1 == i then (1, (p.1, d) :: rest)
      else
        let r := updateFirst rest i d
        (r.1, p :: r.2)

/-- `collection.delete_one({"_id": oid})`: removes the first matching document
and reports `deleted_count` (0 or 1). -/
def deleteFirst {α : Type} : List (ObjectId × α) → ObjectId → Nat × List (ObjectId × α)
  | [], _ =>  (0, [])
  | p :: rest, i =>
      if p.1 == i then (1, rest)
      else
        let r := deleteFirst rest i
        (r.1, p :: r.2)

/-- A Python exception a handler lets escape. The only one the handlers can
raise themselves is `bson.errors.InvalidId` from the `ObjectId(...)` calls. -/
inductive PyErr where
  | invalidId
deriving DecidableEq, Repr

/-- Result of one request as FastAPI sees it: a returned value,
a `raise HTTPException(status_code, detail)`, or an exception the handler
does not catch, which FastAPI surfaces as an undifferentiated 500
server error. -/
inductive Outcome (α : Type) where
  | ok (v : α)
  | httpErr (status : Nat) (detail : String)
  | uncaught (e : PyErr)
deriving DecidableEq, Repr

/-- The `{"message": ..., "id": str(result.inserted_id)}` response of the
three create routes. -/
structure CreatedResp where
  message : String
  id : String
deriving DecidableEq, Repr

/-- The `{"message": ...}` response of the update and delete routes. -/
structure MsgResp where
  message : String
deriving DecidableEq, Repr

/-- An `UploadFile`: `await file.read()` gives `content`, plus `file.filename`
and `file.content_type`. -/
structure FileUpload where
  filename : String
  content : List Nat
  content_type : String
deriving DecidableEq, Repr

/-- `POST /upload_sprite` (lines 28-38). `genId` is the `_id` MongoDB
generates for `insert_one`; in reality it is fresh, which theorems state as a
hypothesis where they need it. -/
def upload_sprite (genId : ObjectId) (file : FileUpload) (st : DB) :
    Outcome CreatedResp × DB :=
  let encoded := b64encodeStr file.content
  let sprite_doc : AssetDoc :=
    { filename := file.filename, content_base64 := encoded, content_type := file.content_type }
  (.ok ⟨"Sprite uploaded", genId.hex⟩, { st with sprites := st.sprites ++ [(genId, sprite_doc)] })

/-- `POST /upload_audio` (lines 42-52). -/
def upload_audio (genId : ObjectId) (file : FileUpload) (st : DB) :
    Outcome CreatedResp × DB :=
  let encoded := b64encodeStr file.content
  let audio_doc : AssetDoc :=
    { filename := file.filename, content_base64 := encoded, content_type := file.content_type }
  (.ok ⟨"Audio uploaded", genId.hex⟩, { st with audio := st.audio ++ [(genId, audio_doc)] })

/-- `POST /player_score` (lines 56-59), after pydantic has accepted the body
as a `PlayerScore`. -/
def add_score (genId : ObjectId) (score : ScoreDoc) (st : DB) :
    Outcome CreatedResp × DB :=
  (.ok ⟨"Score recorded", genId.hex⟩, { st with scores := st.scores ++ [(genId, score)] })

/-- `GET /get_sprite/{sprite_id}` (lines 65-70): `ObjectId(sprite_id)` may
raise, `find_one` returning `None` gives a 404, otherwise the stored document
(with its `_id`) is returned unchanged. -/
def get_sprite (sprite_id : String) (st : DB) : Outcome (ObjectId × AssetDoc) × DB :=
  match ObjectId.parse sprite_id with
  | none => (.uncaught .invalidId, st)
  | some oid =>
      match findById st.sprites oid with
      | none => (.httpErr 404 "Sprite not found", st)
      | some sprite => (.ok (oid, sprite), st)

/-- `GET /get_audio/{audio_id}` (lines 74-79). -/
def get_audio (audio_id : String) (st : DB) : Outcome (ObjectId × AssetDoc) × DB :=
  match ObjectId.parse audio_id with
  | none => (.uncaught .invalidId, st)
  | some oid =>
      match findById st.audio oid with
      | none => (.httpErr 404 "Audio not found", st)
      | some audio => (.ok (oid, audio), st)

/-- `GET /get_score/{score_id}` (lines 83-88). -/
def get_score (score_id : String) (st : DB) : Outcome (ObjectId × ScoreDoc) × DB :=
  match ObjectId.parse score_id with
  | none => (.uncaught .invalidId, st)
  | some oid =>
      match findById st.scores oid with
      | none => (.httpErr 404 "Score not found", st)
      | some score => (.ok (oid, score), st)

/-- `PUT /update_sprite/{sprite_id}` (lines 94-108): `$set` of all three
informational fields on the first matching document, 404 when
`matched_count == 0`. -/
def update_sprite (sprite_id : String) (file : FileUpload) (st : DB) :
    Outcome MsgResp × DB :=
  match ObjectId.parse sprite_id with
  | none => (.uncaught .invalidId, st)
  | some oid =>
      let encoded := b64encodeStr file.content
      let r := updateFirst st.sprites oid
        { filename := file.filename, content_base64 := encoded, content_type := file.content_type }
      let st2 := { st with sprites := r.2 }
      if r.1 == 0 then (.httpErr 404 "Sprite not found", st2)
      else (.ok ⟨"Sprite updated"⟩, st2)

/-- `PUT /update_audio/{audio_id}` (lines 112-126). -/
def update_audio (audio_id : String) (file : FileUpload) (st : DB) :
    Outcome MsgResp × DB :=
  match ObjectId.parse audio_id with
  | none => (.uncaught .invalidId, st)
  | some oid =>
      let encoded := b64encodeStr file.content
      let r := updateFirst st.audio oid
        { filename := file.filename, content_base64 := encoded, content_type := file.content_type }
      let st2 := { st with audio := r.2 }
      if r.1 == 0 then (.httpErr 404 "Audio not found", st2)
      else (.ok ⟨"Audio updated"⟩, st2)

/-- `PUT /update_score/{score_id}` (lines 130-138): `$set` of the full
`updated_score.dict()`. -/
def update_score (score_id : String) (updated_score : ScoreDoc) (st : DB) :
    Outcome MsgResp × DB :=
  match ObjectId.parse score_id with
  | none => (.uncaught .invalidId, st)
  | some oid =>
      let r := updateFirst st.scores oid updated_score
      let st2 := { st with scores := r.2 }
      if r.1 == 0 then (.httpErr 404 "Score not found", st2)
      else (.ok ⟨"Score updated"⟩, st2)

/-- `DELETE /delete_sprite/{sprite_id}` (lines 144-149): 404 when
`deleted_count == 0`. -/
def delete_sprite (sprite_id : String) (st : DB) : Outcome MsgResp × DB :=
  match ObjectId.parse sprite_id with
  | none => (.uncaught .invalidId, st)
  | some oid =>
      let r := deleteFirst st.sprites oid
      let st2 := { st with sprites := r.2 }
      if r.1 == 0 then (.httpErr 404 "Sprite not found", st2)
      else (.ok ⟨"Sprite deleted"⟩, st2)

/-- `DELETE /delete_audio/{audio_id}` (lines 153-158). -/
def delete_audio (audio_id : String) (st : DB) : Outcome MsgResp × DB :=
  match ObjectId.parse audio_id with
  | none => (.uncaught .invalidId, st)
  | some oid =>
      let r := deleteFirst st.audio oid
      let st2 := { st with audio := r.2 }
      if r.1 == 0 then (.httpErr 404 "Audio not found", st2)
      else (.ok ⟨"Audio deleted"⟩, st2)

/-- `DELETE /delete_score/{score_id}` (lines 163-168). -/
def delete_score (score_id : String) (st : DB) : Outcome MsgResp × DB :=
  match ObjectId.parse score_id with
  | none => (.uncaught .invalidId, st)
  | some oid =>
      let r := deleteFirst st.scores oid
      let st2 := { st with scores := r.2 }
      if r.1 == 0 then (.httpErr 404 "Score not found", st2)
      else (.ok ⟨"Score deleted"⟩, st2)

/-- A JSON value as it can appear for a field of the `POST /player_score`
request body, restricted to the shapes the verified properties exercise
(null, integer, string).  Other JSON shapes (booleans, floats, nested
values) are accepted or rejected for an `int` field in pydantic-version-
dependent ways and no property here depends on them. -/
inductive JVal where
  | jnull
  | jint (n : Int)
  | jstr (s : String)
deriving DecidableEq, Repr

/-- Pydantic validation of a `str` field: a JSON string is accepted as-is.
Non-string shapes are treated as rejected (pydantic v2 behaviour; v1 would
coerce numbers to their decimal strings) — no property here depends on that
boundary, since the score field is validated independently. -/
def pydanticStr : JVal → Option String
  | .jstr s => some s
  | _ => none

/-- ASCII whitespace as Python strips it around numeric strings
(space, tab, newline, carriage return, vertical tab, form feed). -/
def isPyWhitespace (c : Char) : Bool :=
  c.toNat == 32 || c.toNat == 9 || c.toNat == 10 || c.toNat == 13 ||
  c.toNat == 11 || c.toNat == 12

/-- Strip leading and trailing whitespace from a character list. -/
def trimWs (l : List Char) : List Char :=
  ((l.dropWhile isPyWhitespace).reverse.dropWhile isPyWhitespace).reverse

/-- An ASCII decimal digit. -/
def isAsciiDigit (c : Char) : Bool :=
  48 ≤ c.toNat && c.toNat ≤ 57

/-- A nonempty digit run with single underscores allowed between digits, the
integer-literal grammar of Python's `int(s)` (restricted to ASCII digits). -/
def wellFormedDigits (l : List Char) : Bool :=
  !l.isEmpty &&
  l.all (fun c => isAsciiDigit c || c == '_') &&
  (match l.head? with | some c => isAsciiDigit c | none => false) &&
  (match l.getLast? with | some c => isAsciiDigit c | none => false) &&
  ((l.zip l.tail).all (fun p => !(p.1 == '_' && p.2 == '_')))

/-- Split a character list at the first `.`: the part before it, and
(when a dot occurs) the part after it. -/
def splitAtDot : List Char → List Char × Option (List Char)
  | [] => ([], none)
  | x :: xs =>
      if x = '.' then ([], some xs)
      else
        let r := splitAtDot xs
        (x :: r.1, r.2)

/-- The unsigned body of a lax integer string: a well-formed digit run,
optionally followed by `.` and zeros (an integral fractional part, which
pydantic v2's string-to-int coercion accepts, as in `"5.0"`). -/
def parseIntBody (l : List Char) : Option Nat :=
  let ip := (splitAtDot l).1
  let fracOk :=
    match (splitAtDot l).2 with
    | none => true
    | some f => f.all (fun c => c == '0')
  if wellFormedDigits ip && fracOk then
    some ((ip.filter (fun c => c != '_')).foldl (fun n c => n * 10 + (c.toNat - 48)) 0)
  else none

/-- Decimal integer strings as pydantic's lax string-to-int coercion accepts
them: surrounding whitespace is stripped, then an optional sign and a digit
run (with underscore grouping, as Python's `int(s)` allows), optionally with
an integral fractional part (`"5.0"`, accepted by pydantic v2).  Unicode
digits and exponent forms sit in a version-dependent zone this model does
not decide; no theorem below relies on an input in that zone — rejection is
only ever proved for strings containing a character that can occur in no
numeric form at all (see `certNonNumericChar`). -/
def pyIntOfString (s : String) : Option Int :=
  match trimWs s.data with
  | [] => none
  | d :: rest =>
      if d = '-' then (parseIntBody rest).map (fun n => -(n : Int))
      else if d = '+' then (parseIntBody rest).map (fun n => (n : Int))
      else (parseIntBody (d :: rest)).map (fun n => (n : Int))

/-- A printable ASCII character that can occur in no numeric string any
pydantic version accepts for an `int` field: not a digit, sign, dot,
underscore, exponent letter, or (possibly trimmed) control/whitespace
character, and not a non-ASCII character (which could be a Unicode digit). -/
def certNonNumericChar (c : Char) : Bool :=
  33 ≤ c.toNat && c.toNat < 128 &&
  !(48 ≤ c.toNat && c.toNat ≤ 57) &&
  c.toNat != 43 && c.toNat != 45 && c.toNat != 46 &&
  c.toNat != 95 && c.toNat != 101 && c.toNat != 69

/-- A string containing a certainly-non-numeric character — rejected by the
string-to-int coercion of every pydantic version. -/
def strNeverLaxInt (s : String) : Bool :=
  s.data.any certNonNumericChar

/-- Pydantic validation of an `int` field in its default (lax) mode:
a JSON integer is accepted, a JSON string is coerced through
`pyIntOfString`, and null is rejected (as every pydantic version does). -/
def pydanticInt : JVal → Option Int
  | .jint n => some n
  | .jstr s => pyIntOfString s
  | .jnull => none

/-- The raw JSON body of `POST /player_score` or `PUT /update_score`,
restricted to its two recognised keys (`none` = key absent). -/
structure RawScoreBody where
  player_name : Option JVal
  score : Option JVal
deriving DecidableEq, Repr

/-- FastAPI/pydantic validation of the body against the `PlayerScore` model
(lines 20-22): both fields required, `player_name` a string, `score` an
integer (with pydantic's lax string-to-int coercion). -/
def parsePlayerScore (body : RawScoreBody) : Option ScoreDoc :=
  match body.player_name, body.score with
  | some pv, some sv =>
      match pydanticStr pv, pydanticInt sv with
      | some pn, some sc => some ⟨pn, sc⟩
      | _, _ => none
  | _, _ => none

/-- The full `POST /player_score` route: FastAPI validates the body against
`PlayerScore` (rejecting with a 422 validation error before any store call)
and only then runs `add_score`. -/
def player_score_route (genId : ObjectId) (body : RawScoreBody) (st : DB) :
    Outcome CreatedResp × DB :=
  match parsePlayerScore body with
  | none => (.httpErr 422 "validation error", st)
  | some score => add_score genId score st

/-- The response the three retrieval routes derive from a `find_one` result:
404 with the given detail when absent, otherwise the stored document (with
its `_id`) verbatim. -/
def readOutcome {α : Type} (oid : ObjectId) (detail : String) :
    Option α → Outcome (ObjectId × α)
  | none => .httpErr 404 detail
  | some d => .ok (oid, d)

/-- A sample generated `ObjectId`, canonical form. -/
def oidA : ObjectId := ⟨"aaaaaaaaaaaaaaaaaaaaaaaa"⟩

/-- The spec's sample upload: filename `a.png`, content `b"\x89PNG"`,
type `image/png`. -/
def sampleFile : FileUpload := ⟨"a.png", [137, 80, 78, 71], "image/png"⟩

/-- A sample database holding one sprite, one audio clip and one score,
all under `oidA`. -/
def sampleDB : DB :=
  ⟨[(oidA, ⟨"old.png", "b2xk", "image/png"⟩)],
   [(oidA, ⟨"old.mp3", "b2xk", "audio/mpeg"⟩)],
   [(oidA, ⟨"Bo", 1⟩)]⟩

lemma findById_cons {α : Type} (p : ObjectId × α) (rest : List (ObjectId × α)) (i : ObjectId) :
    findById (p :: rest) i = if p.1 = i then some p.2 else findById rest i := by
  by_cases h : p.1 = i
  · simp [findById, List.find?_cons, h]
  · simp [findById, List.find?_cons, h]

lemma findById_append_fresh {α : Type} (coll : List (ObjectId × α)) (i : ObjectId) (d : α)
    (h : findById coll i = none) : findById (coll ++ [(i, d)]) i = some d := by
  induction coll with
  | nil => simp [findById, List.find?_cons]
  | cons p rest ih =>
      rw [List.cons_append, findById_cons]
      rw [findById_cons] at h
      by_cases hp : p.1 = i
      · simp [hp] at h
      · simp [hp] at h ⊢
        exact ih h

lemma findById_eq_none_of_not_mem {α : Type} (coll : List (ObjectId × α)) (i : ObjectId)
    (h : i ∉ coll.map Prod.fst) : findById coll i = none := by
  induction coll with
  | nil => rfl
  | cons p rest ih =>
      rw [findById_cons]
      simp only [List.map_cons, List.mem_cons] at h
      push_neg at h
      rw [if_neg (fun he => h.1 he.symm)]
      exact ih h.2

lemma updateFirst_fst_zero_iff {α : Type} (coll : List (ObjectId × α)) (i : ObjectId) (d : α) :
    (updateFirst coll i d).1 = 0 ↔ findById coll i = none := by
  induction coll with
  | nil => simp [updateFirst, findById]
  | cons p rest ih =>
      rw [findById_cons]
      by_cases hp : p.1 = i
      · simp [updateFirst, hp]
      · simp only [updateFirst, beq_iff_eq, hp, if_neg, ite_false]
        simpa [hp] using ih

lemma updateFirst_snd_of_none {α : Type} (coll : List (ObjectId × α)) (i : ObjectId) (d : α)
    (h : findById coll i = none) : (updateFirst coll i d).2 = coll := by
  induction coll with
  | nil => rfl
  | cons p rest ih =>
      rw [findById_cons] at h
      by_cases hp : p.1 = i
      · simp [hp] at h
      · simp [hp] at h
        simp [updateFirst, hp, ih h]

lemma updateFirst_find {α : Type} (coll : List (ObjectId × α)) (i : ObjectId) (d : α)
    (h : findById coll i ≠ none) : findById (updateFirst coll i d).2 i = some d := by
  induction coll with
  | nil => simp [findById] at h
  | cons p rest ih =>
      rw [findById_cons] at h
      by_cases hp : p.1 = i
      · simp [updateFirst, hp, findById_cons]
      · simp only [hp, if_neg, ite_false] at h
        simp [updateFirst, hp, findById_cons, ih h]

lemma deleteFirst_fst_zero_iff {α : Type} (coll : List (ObjectId × α)) (i : ObjectId) :
    (deleteFirst coll i).1 = 0 ↔ findById coll i = none := by
  induction coll with
  | nil => simp [deleteFirst, findById]
  | cons p rest ih =>
      rw [findById_cons]
      by_cases hp : p.1 = i
      · simp [deleteFirst, hp]
      · simp only [deleteFirst, beq_iff_eq, hp, if_neg, ite_false]
        simpa [hp] using ih

lemma deleteFirst_snd_of_none {α : Type} (coll : List (ObjectId × α)) (i : ObjectId)
    (h : findById coll i = none) : (deleteFirst coll i).2 = coll := by
  induction coll with
  | nil => rfl
  | cons p rest ih =>
      rw [findById_cons] at h
      by_cases hp : p.1 = i
      · simp [hp] at h
      · simp [hp] at h
        simp [deleteFirst, hp, ih h]

lemma deleteFirst_find {α : Type} (coll : List (ObjectId × α)) (i : ObjectId)
    (hnd : (coll.map Prod.fst).Nodup) (h : findById coll i ≠ none) :
    findById (deleteFirst coll i).2 i = none := by
  induction coll with
  | nil => simp [findById] at h
  | cons p rest ih =>
      simp only [List.map_cons, List.nodup_cons] at hnd
      rw [findById_cons] at h
      by_cases hp : p.1 = i
      · simp only [deleteFirst, beq_iff_eq, hp, ite_true]
        exact findById_eq_none_of_not_mem rest i (hp ▸ hnd.1)
      · simp only [hp, if_neg, ite_false] at h
        simp [deleteFirst, hp, findById_cons, ih hnd.2 h]

lemma ObjectId.parse_wf (o : ObjectId) (h : o.wf) : ObjectId.parse o.hex = some o := by
  unfold ObjectId.parse
  rw [if_pos h.1]
  rw [h.2]

lemma snd_ite {α β : Type} (c : Prop) [Decidable c] (x y : α) (s : β) :
    (if c then (x, s) else (y, s)).2 = s := by
  split <;> rfl

lemma mem_dropWhile_of_not (c : Char) (p : Char → Bool) (hp : p c = false) :
    ∀ (l : List Char), c ∈ l → c ∈ l.dropWhile p
  | x :: xs, h => by
      rw [List.dropWhile_cons]
      by_cases hx : p x = true
      · rcases List.mem_cons.mp h with rfl | hm
        · rw [hp] at hx; cases hx
        · rw [if_pos hx]
          exact mem_dropWhile_of_not c p hp xs hm
      · rw [if_neg hx]
        exact h

lemma mem_trimWs (c : Char) (l : List Char) (h : c ∈ l)
    (hw : isPyWhitespace c = false) : c ∈ trimWs l := by
  unfold trimWs
  rw [List.mem_reverse]
  apply mem_dropWhile_of_not c isPyWhitespace hw
  rw [List.mem_reverse]
  exact mem_dropWhile_of_not c isPyWhitespace hw l h

lemma splitAtDot_mem (c : Char) : ∀ (l : List Char), c ∈ l →
    c ∈ (splitAtDot l).1 ∨ c = '.' ∨ ∃ f, (splitAtDot l).2 = some f ∧ c ∈ f
  | x :: xs, h => by
      by_cases hx : x = '.'
      · subst hx
        simp only [splitAtDot, if_pos rfl]
        rcases List.mem_cons.mp h with rfl | hm
        · exact Or.inr (Or.inl rfl)
        · exact Or.inr (Or.inr ⟨xs, rfl, hm⟩)
      · simp only [splitAtDot, if_neg hx]
        rcases List.mem_cons.mp h with rfl | hm
        · exact Or.inl (List.mem_cons_self _ _)
        · rcases splitAtDot_mem c xs hm with h1 | h2 | ⟨f, hf, hcf⟩
          · exact Or.inl (List.mem_cons_of_mem _ h1)
          · exact Or.inr (Or.inl h2)
          · exact Or.inr (Or.inr ⟨f, hf, hcf⟩)

lemma parseIntBody_eq_none (c : Char) (l : List Char) (h : c ∈ l)
    (hd : isAsciiDigit c = false) (hu : c ≠ '_') (hdot : c ≠ '.') :
    parseIntBody l = none := by
  rcases splitAtDot_mem c l h with hIn | hEq | ⟨f, hf, hcf⟩
  · have hall : (splitAtDot l).1.all (fun x => isAsciiDigit x || x == '_') = false := by
      cases hall2 : (splitAtDot l).1.all (fun x => isAsciiDigit x || x == '_')
      · rfl
      · have hx := List.all_eq_true.mp hall2 c hIn
        rw [hd] at hx
        simp only [Bool.false_or, beq_iff_eq] at hx
        exact absurd hx hu
    have hwf : wellFormedDigits (splitAtDot l).1 = false := by
      simp [wellFormedDigits, hall]
    simp [parseIntBody, hwf]
  · exact absurd hEq hdot
  · have hall : f.all (fun x => x == '0') = false := by
      cases hall2 : f.all (fun x => x == '0')
      · rfl
      · have hx := List.all_eq_true.mp hall2 c hcf
        have hc0 : c = '0' := by simpa using hx
        rw [hc0] at hd
        exact absurd hd (by decide)
    simp [parseIntBody, hf, hall]

lemma pyIntOfString_none_of_forbidden (s : String) (c : Char) (hc : c ∈ s.data)
    (h : certNonNumericChar c = true) : pyIntOfString s = none := by
  have hu : c ≠ '_' := fun e => absurd (e ▸ h) (by decide)
  have hdot : c ≠ '.' := fun e => absurd (e ▸ h) (by decide)
  have hminus : c ≠ '-' := fun e => absurd (e ▸ h) (by decide)
  have hplus : c ≠ '+' := fun e => absurd (e ▸ h) (by decide)
  rw [certNonNumericChar] at h
  simp only [Bool.and_eq_true, decide_eq_true_eq, Bool.not_eq_true',
    Bool.and_eq_false_iff, decide_eq_false_iff_not, bne_iff_ne, Ne] at h
  have hw : isPyWhitespace c = false := by
    simp only [isPyWhitespace, Bool.or_eq_false_iff, beq_eq_false_iff_ne, Ne]
    omega
  have hd : isAsciiDigit c = false := by
    simp only [isAsciiDigit, Bool.and_eq_false_iff, decide_eq_false_iff_not]
    omega
  have hmem := mem_trimWs c s.data hc hw
  cases htr : trimWs s.data with
  | nil => rw [htr] at hmem; cases hmem
  | cons d rest =>
      rw [htr] at hmem
      by_cases hdm : d = '-'
      · subst hdm
        have hcr : c ∈ rest := by
          rcases List.mem_cons.mp hmem with rfl | hm
          · exact absurd rfl hminus
          · exact hm
        simp [pyIntOfString, htr, parseIntBody_eq_none c rest hcr hd hu hdot]
      · by_cases hdp : d = '+'
        · subst hdp
          have hcr : c ∈ rest := by
            rcases List.mem_cons.mp hmem with rfl | hm
            · exact absurd rfl hplus
            · exact hm
          simp [pyIntOfString, htr, hdm, parseIntBody_eq_none c rest hcr hd hu hdot]
        · simp [pyIntOfString, htr, hdm, hdp,
            parseIntBody_eq_none c (d :: rest) hmem hd hu hdot]

/-- C1 (counterexample): `GET /get_audio/not-a-valid-id` does not produce a
distinct input-validation response — the `ObjectId` constructor's `InvalidId`
exception escapes the handler uncaught (an undifferentiated 500 server error),
though it is at least not a 404. -/
theorem get_audio_malformed_id_is_uncaught :
    (get_audio "not-a-valid-id" DB.empty).1 = Outcome.uncaught PyErr.invalidId ∧
    (get_audio "not-a-valid-id" DB.empty).1 ≠ Outcome.httpErr 404 "Audio not found" := by
  decide

/-- C1 (amended): every Read, Update or Delete whose identifier string is not
a well-formed `ObjectId` lets the `InvalidId` exception escape uncaught —
it is never treated as not-found and never reaches the store (state
unchanged), but it surfaces as an undifferentiated server error rather than a
distinct input-validation error. -/
theorem malformed_id_always_uncaught (sid : String) (h : ObjectId.parse sid = none)
    (file : FileUpload) (sc : ScoreDoc) (st : DB) :
    get_sprite sid st = (.uncaught .invalidId, st) ∧
    get_audio sid st = (.uncaught .invalidId, st) ∧
    get_score sid st = (.uncaught .invalidId, st) ∧
    update_sprite sid file st = (.uncaught .invalidId, st) ∧
    update_audio sid file st = (.uncaught .invalidId, st) ∧
    update_score sid sc st = (.uncaught .invalidId, st) ∧
    delete_sprite sid st = (.uncaught .invalidId, st) ∧
    delete_audio sid st = (.uncaught .invalidId, st) ∧
    delete_score sid st = (.uncaught .invalidId, st) := by
  simp [get_sprite, get_audio, get_score, update_sprite, update_audio, update_score,
        delete_sprite, delete_audio, delete_score, h]

/-- C1 (witness for the amended theorem) at the spec's concrete malformed
identifier. -/
theorem malformed_id_always_uncaught_witness :
    get_sprite "not-a-valid-id" DB.empty = (.uncaught .invalidId, DB.empty) ∧
    get_audio "not-a-valid-id" DB.empty = (.uncaught .invalidId, DB.empty) ∧
    get_score "not-a-valid-id" DB.empty = (.uncaught .invalidId, DB.empty) ∧
    update_sprite "not-a-valid-id" sampleFile DB.empty = (.uncaught .invalidId, DB.empty) ∧
    update_audio "not-a-valid-id" sampleFile DB.empty = (.uncaught .invalidId, DB.empty) ∧
    update_score "not-a-valid-id" ⟨"Al", 5⟩ DB.empty = (.uncaught .invalidId, DB.empty) ∧
    delete_sprite "not-a-valid-id" DB.empty = (.uncaught .invalidId, DB.empty) ∧
    delete_audio "not-a-valid-id" DB.empty = (.uncaught .invalidId, DB.empty) ∧
    delete_score "not-a-valid-id" DB.empty = (.uncaught .invalidId, DB.empty) :=
  malformed_id_always_uncaught "not-a-valid-id" (by decide) sampleFile ⟨"Al", 5⟩ DB.empty

/-- C3: decoding the codec's base64 encoding of any byte sequence (empty
included) returns the original bytes. -/
theorem b64_decode_encode_roundtrip (b : List Nat) (h : ∀ x ∈ b, x < 256) :
    b64decodeStr (b64encodeStr b) = b :=
  b64decode_b64encode b h

/-- C3 (witness) at the spec's `b"\x89PNG"` payload. -/
theorem b64_decode_encode_roundtrip_witness :
    b64decodeStr (b64encodeStr [137, 80, 78, 71]) = [137, 80, 78, 71] :=
  b64_decode_encode_roundtrip [137, 80, 78, 71] (by decide)

/-- C4 (counterexample): posting `{"player_name": "Al", "score": "5"}` — a
string score — is not rejected: pydantic's default lax mode silently coerces
the string `"5"` to the integer `5`, the insert succeeds and the stored score
is the integer `5`. -/
theorem player_score_string_score_coerced :
    player_score_route oidA ⟨some (.jstr "Al"), some (.jstr "5")⟩ DB.empty =
      (.ok ⟨"Score recorded", "aaaaaaaaaaaaaaaaaaaaaaaa"⟩,
       ⟨[], [], [(oidA, ⟨"Al", 5⟩)]⟩) := by
  decide

/-- C4 (amended): a score value that no pydantic version's lax coercion can
interpret as an integer — null, or a string containing a character that can
occur in no numeric form (such as a letter, see `certNonNumericChar`) — is
rejected with a validation error before any store call (state unchanged);
but a string holding a decimal integer is silently coerced and stored, so
non-integer input is neither always rejected nor never coerced. -/
theorem score_uninterpretable_rejected_before_store (genId : ObjectId) (pv : JVal)
    (s : String) (st : DB) (h : strNeverLaxInt s = true) :
    player_score_route genId ⟨some pv, some .jnull⟩ st =
      (.httpErr 422 "validation error", st) ∧
    player_score_route genId ⟨some pv, some (.jstr s)⟩ st =
      (.httpErr 422 "validation error", st) := by
  have hnone : pyIntOfString s = none := by
    rw [strNeverLaxInt] at h
    obtain ⟨c, hc, hcert⟩ := List.any_eq_true.mp h
    exact pyIntOfString_none_of_forbidden s c hc hcert
  constructor
  · cases hp : pydanticStr pv <;>
      simp [player_score_route, parsePlayerScore, pydanticInt, hp]
  · cases hp : pydanticStr pv <;>
      simp [player_score_route, parsePlayerScore, pydanticInt, hp, hnone]

/-- C4 (witness for the amended theorem): a null score and the letters-only
string score `"abc"` are both rejected and nothing is stored. -/
theorem score_uninterpretable_rejected_witness :
    player_score_route oidA ⟨some (.jstr "Al"), some .jnull⟩ DB.empty =
      (.httpErr 422 "validation error", DB.empty) ∧
    player_score_route oidA ⟨some (.jstr "Al"), some (.jstr "abc")⟩ DB.empty =
      (.httpErr 422 "validation error", DB.empty) :=
  score_uninterpretable_rejected_before_store oidA (.jstr "Al") "abc" DB.empty (by decide)

/-- C10: the sprite and audio create routes accept every payload — any bytes,
filename and declared MIME type, validation-free — always answering with the
fixed message and the new identifier and appending exactly one document; the
empty file is stored with empty `content_base64`. -/
theorem upload_accepts_every_payload (genId : ObjectId) (file : FileUpload) (st : DB) :
    upload_sprite genId file st =
      (.ok ⟨"Sprite uploaded", genId.hex⟩,
       { st with sprites := st.sprites ++
           [(genId, ⟨file.filename, b64encodeStr file.content, file.content_type⟩)] }) ∧
    upload_audio genId file st =
      (.ok ⟨"Audio uploaded", genId.hex⟩,
       { st with audio := st.audio ++
           [(genId, ⟨file.filename, b64encodeStr file.content, file.content_type⟩)] }) ∧
    b64encodeStr [] = "" :=
  ⟨rfl, rfl, rfl⟩

/-- C2: for each of the three resource kinds, creating a record and reading
back the returned identifier yields exactly the informational fields of the
create input; for sprites and audio the stored `content_base64` decodes back
to the uploaded bytes. -/
theorem create_then_read_roundtrip (genId : ObjectId) (hw : genId.wf)
    (file : FileUpload) (hb : ∀ x ∈ file.content, x < 256)
    (pn : String) (sc : Int) (st : DB)
    (hs : findById st.sprites genId = none)
    (ha : findById st.audio genId = none)
    (hc : findById st.scores genId = none) :
    (upload_sprite genId file st).1 = .ok ⟨"Sprite uploaded", genId.hex⟩ ∧
    (get_sprite genId.hex (upload_sprite genId file st).2).1 =
      .ok (genId, ⟨file.filename, b64encodeStr file.content, file.content_type⟩) ∧
    (upload_audio genId file st).1 = .ok ⟨"Audio uploaded", genId.hex⟩ ∧
    (get_audio genId.hex (upload_audio genId file st).2).1 =
      .ok (genId, ⟨file.filename, b64encodeStr file.content, file.content_type⟩) ∧
    (player_score_route genId ⟨some (.jstr pn), some (.jint sc)⟩ st).1 =
      .ok ⟨"Score recorded", genId.hex⟩ ∧
    (get_score genId.hex (player_score_route genId ⟨some (.jstr pn), some (.jint sc)⟩ st).2).1 =
      .ok (genId, ⟨pn, sc⟩) ∧
    b64decodeStr (b64encodeStr file.content) = file.content := by
  have hparse := ObjectId.parse_wf genId hw
  refine ⟨rfl, ?_, rfl, ?_, rfl, ?_, b64decode_b64encode file.content hb⟩
  · have h2 : (upload_sprite genId file st).2.sprites =
        st.sprites ++ [(genId, ⟨file.filename, b64encodeStr file.content, file.content_type⟩)] := rfl
    simp only [get_sprite, hparse, h2, findById_append_fresh _ _ _ hs]
  · have h2 : (upload_audio genId file st).2.audio =
        st.audio ++ [(genId, ⟨file.filename, b64encodeStr file.content, file.content_type⟩)] := rfl
    simp only [get_audio, hparse, h2, findById_append_fresh _ _ _ ha]
  · have h2 : (player_score_route genId ⟨some (.jstr pn), some (.jint sc)⟩ st).2.scores =
        st.scores ++ [(genId, ⟨pn, sc⟩)] := rfl
    simp only [get_score, hparse, h2, findById_append_fresh _ _ _ hc]

/-- C2 (witness): the spec's sample sprite (`a.png`, `b"\x89PNG"`,
`image/png`) and score (`Al`, 5) round-trip on the empty database. -/
theorem create_then_read_roundtrip_witness :
    (upload_sprite oidA sampleFile DB.empty).1 = .ok ⟨"Sprite uploaded", "aaaaaaaaaaaaaaaaaaaaaaaa"⟩ ∧
    (get_sprite "aaaaaaaaaaaaaaaaaaaaaaaa" (upload_sprite oidA sampleFile DB.empty).2).1 =
      .ok (oidA, ⟨"a.png", b64encodeStr [137, 80, 78, 71], "image/png"⟩) ∧
    (upload_audio oidA sampleFile DB.empty).1 = .ok ⟨"Audio uploaded", "aaaaaaaaaaaaaaaaaaaaaaaa"⟩ ∧
    (get_audio "aaaaaaaaaaaaaaaaaaaaaaaa" (upload_audio oidA sampleFile DB.empty).2).1 =
      .ok (oidA, ⟨"a.png", b64encodeStr [137, 80, 78, 71], "image/png"⟩) ∧
    (player_score_route oidA ⟨some (.jstr "Al"), some (.jint 5)⟩ DB.empty).1 =
      .ok ⟨"Score recorded", "aaaaaaaaaaaaaaaaaaaaaaaa"⟩ ∧
    (get_score "aaaaaaaaaaaaaaaaaaaaaaaa"
        (player_score_route oidA ⟨some (.jstr "Al"), some (.jint 5)⟩ DB.empty).2).1 =
      .ok (oidA, ⟨"Al", 5⟩) ∧
    b64decodeStr (b64encodeStr [137, 80, 78, 71]) = [137, 80, 78, 71] :=
  create_then_read_roundtrip oidA ⟨by decide, by decide⟩ sampleFile (by decide)
    "Al" 5 DB.empty rfl rfl rfl

/-- C5: an Update with a well-formed identifier that exists replaces all
informational fields with the new payload — a subsequent Read under the same
identifier returns exactly the new payload's fields (so no field value from
before the update) and the identifier is unchanged; when the identifier does
not exist, Update answers not-found and changes nothing. -/
theorem update_full_overwrite (sid : String) (oid : ObjectId)
    (hp : ObjectId.parse sid = some oid) (file : FileUpload)
    (pn : String) (sc : Int) (st : DB) :
    (findById st.sprites oid ≠ none →
       (update_sprite sid file st).1 = .ok ⟨"Sprite updated"⟩ ∧
       (get_sprite sid (update_sprite sid file st).2).1 =
         .ok (oid, ⟨file.filename, b64encodeStr file.content, file.content_type⟩)) ∧
    (findById st.sprites oid = none →
       update_sprite sid file st = (.httpErr 404 "Sprite not found", st)) ∧
    (findById st.audio oid ≠ none →
       (update_audio sid file st).1 = .ok ⟨"Audio updated"⟩ ∧
       (get_audio sid (update_audio sid file st).2).1 =
         .ok (oid, ⟨file.filename, b64encodeStr file.content, file.content_type⟩)) ∧
    (findById st.audio oid = none →
       update_audio sid file st = (.httpErr 404 "Audio not found", st)) ∧
    (findById st.scores oid ≠ none →
       (update_score sid ⟨pn, sc⟩ st).1 = .ok ⟨"Score updated"⟩ ∧
       (get_score sid (update_score sid ⟨pn, sc⟩ st).2).1 = .ok (oid, ⟨pn, sc⟩)) ∧
    (findById st.scores oid = none →
       update_score sid ⟨pn, sc⟩ st = (.httpErr 404 "Score not found", st)) := by
  refine ⟨?_, ?_, ?_, ?_, ?_, ?_⟩
  · intro h
    have h0 : ¬((updateFirst st.sprites oid
        ⟨file.filename, b64encodeStr file.content, file.content_type⟩).1 = 0) := by
      rw [updateFirst_fst_zero_iff]; exact h
    constructor
    · simp [update_sprite, hp, h0]
    · simp [update_sprite, get_sprite, hp, h0, updateFirst_find _ _ _ h]
  · intro h
    have h0 := (updateFirst_fst_zero_iff st.sprites oid
      ⟨file.filename, b64encodeStr file.content, file.content_type⟩).mpr h
    have h2 := updateFirst_snd_of_none st.sprites oid
      ⟨file.filename, b64encodeStr file.content, file.content_type⟩ h
    simp [update_sprite, hp, h0, h2]
  · intro h
    have h0 : ¬((updateFirst st.audio oid
        ⟨file.filename, b64encodeStr file.content, file.content_type⟩).1 = 0) := by
      rw [updateFirst_fst_zero_iff]; exact h
    constructor
    · simp [update_audio, hp, h0]
    · simp [update_audio, get_audio, hp, h0, updateFirst_find _ _ _ h]
  · intro h
    have h0 := (updateFirst_fst_zero_iff st.audio oid
      ⟨file.filename, b64encodeStr file.content, file.content_type⟩).mpr h
    have h2 := updateFirst_snd_of_none st.audio oid
      ⟨file.filename, b64encodeStr file.content, file.content_type⟩ h
    simp [update_audio, hp, h0, h2]
  · intro h
    have h0 : ¬((updateFirst st.scores oid (⟨pn, sc⟩ : ScoreDoc)).1 = 0) := by
      rw [updateFirst_fst_zero_iff]; exact h
    constructor
    · simp [update_score, hp, h0]
    · simp [update_score, get_score, hp, h0, updateFirst_find _ _ _ h]
  · intro h
    have h0 := (updateFirst_fst_zero_iff st.scores oid (⟨pn, sc⟩ : ScoreDoc)).mpr h
    have h2 := updateFirst_snd_of_none st.scores oid (⟨pn, sc⟩ : ScoreDoc) h
    simp [update_score, hp, h0, h2]

/-- C5 (witness): on a database holding one sprite, one audio clip and one
score under `oidA`, updating each with the sample payload succeeds and reads
back exactly the new fields. -/
theorem update_full_overwrite_witness :
    ((findById sampleDB.sprites oidA ≠ none →
       (update_sprite "aaaaaaaaaaaaaaaaaaaaaaaa" sampleFile sampleDB).1 = .ok ⟨"Sprite updated"⟩ ∧
       (get_sprite "aaaaaaaaaaaaaaaaaaaaaaaa"
           (update_sprite "aaaaaaaaaaaaaaaaaaaaaaaa" sampleFile sampleDB).2).1 =
         .ok (oidA, ⟨"a.png", b64encodeStr [137, 80, 78, 71], "image/png"⟩)) ∧
     (findById sampleDB.sprites oidA = none →
       update_sprite "aaaaaaaaaaaaaaaaaaaaaaaa" sampleFile sampleDB =
         (.httpErr 404 "Sprite not found", sampleDB)) ∧
     (findById sampleDB.audio oidA ≠ none →
       (update_audio "aaaaaaaaaaaaaaaaaaaaaaaa" sampleFile sampleDB).1 = .ok ⟨"Audio updated"⟩ ∧
       (get_audio "aaaaaaaaaaaaaaaaaaaaaaaa"
           (update_audio "aaaaaaaaaaaaaaaaaaaaaaaa" sampleFile sampleDB).2).1 =
         .ok (oidA, ⟨"a.png", b64encodeStr [137, 80, 78, 71], "image/png"⟩)) ∧
     (findById sampleDB.audio oidA = none →
       update_audio "aaaaaaaaaaaaaaaaaaaaaaaa" sampleFile sampleDB =
         (.httpErr 404 "Audio not found", sampleDB)) ∧
     (findById sampleDB.scores oidA ≠ none →
       (update_score "aaaaaaaaaaaaaaaaaaaaaaaa" ⟨"Al", 5⟩ sampleDB).1 = .ok ⟨"Score updated"⟩ ∧
       (get_score "aaaaaaaaaaaaaaaaaaaaaaaa"
           (update_score "aaaaaaaaaaaaaaaaaaaaaaaa" ⟨"Al", 5⟩ sampleDB).2).1 =
         .ok (oidA, ⟨"Al", 5⟩)) ∧
     (findById sampleDB.scores oidA = none →
       update_score "aaaaaaaaaaaaaaaaaaaaaaaa" ⟨"Al", 5⟩ sampleDB =
         (.httpErr 404 "Score not found", sampleDB))) :=
  update_full_overwrite "aaaaaaaaaaaaaaaaaaaaaaaa" oidA (by decide) sampleFile "Al" 5 sampleDB

/-- C7: a Read with a well-formed identifier mutates nothing, answers 404
exactly when the identifier is absent from its collection, and otherwise
returns the stored record verbatim — in particular the binary content stays
text-encoded, no decoding happens on read. -/
theorem read_notfound_iff_absent (sid : String) (oid : ObjectId)
    (hp : ObjectId.parse sid = some oid) (st : DB) :
    (get_sprite sid st).2 = st ∧
    ((get_sprite sid st).1 = .httpErr 404 "Sprite not found" ↔ findById st.sprites oid = none) ∧
    (get_sprite sid st).1 = readOutcome oid "Sprite not found" (findById st.sprites oid) ∧
    (get_audio sid st).2 = st ∧
    ((get_audio sid st).1 = .httpErr 404 "Audio not found" ↔ findById st.audio oid = none) ∧
    (get_audio sid st).1 = readOutcome oid "Audio not found" (findById st.audio oid) ∧
    (get_score sid st).2 = st ∧
    ((get_score sid st).1 = .httpErr 404 "Score not found" ↔ findById st.scores oid = none) ∧
    (get_score sid st).1 = readOutcome oid "Score not found" (findById st.scores oid) := by
  refine ⟨?_, ?_, ?_, ?_, ?_, ?_, ?_, ?_, ?_⟩
  · cases hf : findById st.sprites oid <;> simp [get_sprite, readOutcome, hp, hf]
  · cases hf : findById st.sprites oid <;> simp [get_sprite, readOutcome, hp, hf]
  · cases hf : findById st.sprites oid <;> simp [get_sprite, readOutcome, hp, hf]
  · cases hf : findById st.audio oid <;> simp [get_audio, readOutcome, hp, hf]
  · cases hf : findById st.audio oid <;> simp [get_audio, readOutcome, hp, hf]
  · cases hf : findById st.audio oid <;> simp [get_audio, readOutcome, hp, hf]
  · cases hf : findById st.scores oid <;> simp [get_score, readOutcome, hp, hf]
  · cases hf : findById st.scores oid <;> simp [get_score, readOutcome, hp, hf]
  · cases hf : findById st.scores oid <;> simp [get_score, readOutcome, hp, hf]

/-- C7 (witness): reads on `sampleDB` with the present identifier return the
stored records verbatim and do not mutate the database. -/
theorem read_notfound_iff_absent_witness :
    ((get_sprite "aaaaaaaaaaaaaaaaaaaaaaaa" sampleDB).2 = sampleDB ∧
     ((get_sprite "aaaaaaaaaaaaaaaaaaaaaaaa" sampleDB).1 = .httpErr 404 "Sprite not found" ↔
        findById sampleDB.sprites oidA = none) ∧
     (get_sprite "aaaaaaaaaaaaaaaaaaaaaaaa" sampleDB).1 =
       readOutcome oidA "Sprite not found" (findById sampleDB.sprites oidA) ∧
     (get_audio "aaaaaaaaaaaaaaaaaaaaaaaa" sampleDB).2 = sampleDB ∧
     ((get_audio "aaaaaaaaaaaaaaaaaaaaaaaa" sampleDB).1 = .httpErr 404 "Audio not found" ↔
        findById sampleDB.audio oidA = none) ∧
     (get_audio "aaaaaaaaaaaaaaaaaaaaaaaa" sampleDB).1 =
       readOutcome oidA "Audio not found" (findById sampleDB.audio oidA) ∧
     (get_score "aaaaaaaaaaaaaaaaaaaaaaaa" sampleDB).2 = sampleDB ∧
     ((get_score "aaaaaaaaaaaaaaaaaaaaaaaa" sampleDB).1 = .httpErr 404 "Score not found" ↔
        findById sampleDB.scores oidA = none) ∧
     (get_score "aaaaaaaaaaaaaaaaaaaaaaaa" sampleDB).1 =
       readOutcome oidA "Score not found" (findById sampleDB.scores oidA)) :=
  read_notfound_iff_absent "aaaaaaaaaaaaaaaaaaaaaaaa" oidA (by decide) sampleDB

/-- C6: with a well-formed identifier present in the collection, Delete
succeeds, the record is absent afterwards, and a second Delete of the same
identifier answers not-found rather than success; a Delete of an absent
identifier answers not-found and changes nothing.  The no-duplicate-key
hypotheses model MongoDB's unique `_id` index. -/
theorem delete_idempotent_effect (sid : String) (oid : ObjectId)
    (hp : ObjectId.parse sid = some oid) (st : DB)
    (hnds : (st.sprites.map Prod.fst).Nodup)
    (hnda : (st.audio.map Prod.fst).Nodup)
    (hndc : (st.scores.map Prod.fst).Nodup) :
    (findById st.sprites oid ≠ none →
       (delete_sprite sid st).1 = .ok ⟨"Sprite deleted"⟩ ∧
       findById (delete_sprite sid st).2.sprites oid = none ∧
       (delete_sprite sid (delete_sprite sid st).2).1 = .httpErr 404 "Sprite not found") ∧
    (findById st.sprites oid = none →
       delete_sprite sid st = (.httpErr 404 "Sprite not found", st)) ∧
    (findById st.audio oid ≠ none →
       (delete_audio sid st).1 = .ok ⟨"Audio deleted"⟩ ∧
       findById (delete_audio sid st).2.audio oid = none ∧
       (delete_audio sid (delete_audio sid st).2).1 = .httpErr 404 "Audio not found") ∧
    (findById st.audio oid = none →
       delete_audio sid st = (.httpErr 404 "Audio not found", st)) ∧
    (findById st.scores oid ≠ none →
       (delete_score sid st).1 = .ok ⟨"Score deleted"⟩ ∧
       findById (delete_score sid st).2.scores oid = none ∧
       (delete_score sid (delete_score sid st).2).1 = .httpErr 404 "Score not found") ∧
    (findById st.scores oid = none →
       delete_score sid st = (.httpErr 404 "Score not found", st)) := by
  refine ⟨?_, ?_, ?_, ?_, ?_, ?_⟩
  · intro h
    have h0 : ¬((deleteFirst st.sprites oid).1 = 0) := by
      rw [deleteFirst_fst_zero_iff]; exact h
    have hfind := deleteFirst_find st.sprites oid hnds h
    have h02 : (deleteFirst (deleteFirst st.sprites oid).2 oid).1 = 0 :=
      (deleteFirst_fst_zero_iff _ _).mpr hfind
    refine ⟨by simp [delete_sprite, hp, h0], ?_, ?_⟩
    · simpa [delete_sprite, hp, h0] using hfind
    · simp [delete_sprite, hp, h0, h02]
  · intro h
    have h0 := (deleteFirst_fst_zero_iff st.sprites oid).mpr h
    have h2 := deleteFirst_snd_of_none st.sprites oid h
    simp [delete_sprite, hp, h0, h2]
  · intro h
    have h0 : ¬((deleteFirst st.audio oid).1 = 0) := by
      rw [deleteFirst_fst_zero_iff]; exact h
    have hfind := deleteFirst_find st.audio oid hnda h
    have h02 : (deleteFirst (deleteFirst st.audio oid).2 oid).1 = 0 :=
      (deleteFirst_fst_zero_iff _ _).mpr hfind
    refine ⟨by simp [delete_audio, hp, h0], ?_, ?_⟩
    · simpa [delete_audio, hp, h0] using hfind
    · simp [delete_audio, hp, h0, h02]
  · intro h
    have h0 := (deleteFirst_fst_zero_iff st.audio oid).mpr h
    have h2 := deleteFirst_snd_of_none st.audio oid h
    simp [delete_audio, hp, h0, h2]
  · intro h
    have h0 : ¬((deleteFirst st.scores oid).1 = 0) := by
      rw [deleteFirst_fst_zero_iff]; exact h
    have hfind := deleteFirst_find st.scores oid hndc h
    have h02 : (deleteFirst (deleteFirst st.scores oid).2 oid).1 = 0 :=
      (deleteFirst_fst_zero_iff _ _).mpr hfind
    refine ⟨by simp [delete_score, hp, h0], ?_, ?_⟩
    · simpa [delete_score, hp, h0] using hfind
    · simp [delete_score, hp, h0, h02]
  · intro h
    have h0 := (deleteFirst_fst_zero_iff st.scores oid).mpr h
    have h2 := deleteFirst_snd_of_none st.scores oid h
    simp [delete_score, hp, h0, h2]

/-- C6 (witness): deleting the records of `sampleDB` succeeds, leaves them
absent, and a repeated delete answers 404. -/
theorem delete_idempotent_effect_witness :
    ((findById sampleDB.sprites oidA ≠ none →
       (delete_sprite "aaaaaaaaaaaaaaaaaaaaaaaa" sampleDB).1 = .ok ⟨"Sprite deleted"⟩ ∧
       findById (delete_sprite "aaaaaaaaaaaaaaaaaaaaaaaa" sampleDB).2.sprites oidA = none ∧
       (delete_sprite "aaaaaaaaaaaaaaaaaaaaaaaa"
           (delete_sprite "aaaaaaaaaaaaaaaaaaaaaaaa" sampleDB).2).1 =
         .httpErr 404 "Sprite not found") ∧
     (findById sampleDB.sprites oidA = none →
       delete_sprite "aaaaaaaaaaaaaaaaaaaaaaaa" sampleDB =
         (.httpErr 404 "Sprite not found", sampleDB)) ∧
     (findById sampleDB.audio oidA ≠ none →
       (delete_audio "aaaaaaaaaaaaaaaaaaaaaaaa" sampleDB).1 = .ok ⟨"Audio deleted"⟩ ∧
       findById (delete_audio "aaaaaaaaaaaaaaaaaaaaaaaa" sampleDB).2.audio oidA = none ∧
       (delete_audio "aaaaaaaaaaaaaaaaaaaaaaaa"
           (delete_audio "aaaaaaaaaaaaaaaaaaaaaaaa" sampleDB).2).1 =
         .httpErr 404 "Audio not found") ∧
     (findById sampleDB.audio oidA = none →
       delete_audio "aaaaaaaaaaaaaaaaaaaaaaaa" sampleDB =
         (.httpErr 404 "Audio not found", sampleDB)) ∧
     (findById sampleDB.scores oidA ≠ none →
       (delete_score "aaaaaaaaaaaaaaaaaaaaaaaa" sampleDB).1 = .ok ⟨"Score deleted"⟩ ∧
       findById (delete_score "aaaaaaaaaaaaaaaaaaaaaaaa" sampleDB).2.scores oidA = none ∧
       (delete_score "aaaaaaaaaaaaaaaaaaaaaaaa"
           (delete_score "aaaaaaaaaaaaaaaaaaaaaaaa" sampleDB).2).1 =
         .httpErr 404 "Score not found") ∧
     (findById sampleDB.scores oidA = none →
       delete_score "aaaaaaaaaaaaaaaaaaaaaaaa" sampleDB =
         (.httpErr 404 "Score not found", sampleDB))) :=
  delete_idempotent_effect "aaaaaaaaaaaaaaaaaaaaaaaa" oidA (by decide) sampleDB
    (by decide) (by decide) (by decide)

/-- C8: for every Update and Delete with a well-formed identifier, the
not-found outcome holds exactly when the store call's `matched_count`
(respectively `deleted_count`) is zero — the explicit post-condition check
the handlers perform. -/
theorem notfound_iff_zero_count (sid : String) (oid : ObjectId)
    (hp : ObjectId.parse sid = some oid) (file : FileUpload)
    (pn : String) (sc : Int) (st : DB) :
    ((update_sprite sid file st).1 = .httpErr 404 "Sprite not found" ↔
       (updateFirst st.sprites oid
         ⟨file.filename, b64encodeStr file.content, file.content_type⟩).1 = 0) ∧
    ((update_audio sid file st).1 = .httpErr 404 "Audio not found" ↔
       (updateFirst st.audio oid
         ⟨file.filename, b64encodeStr file.content, file.content_type⟩).1 = 0) ∧
    ((update_score sid ⟨pn, sc⟩ st).1 = .httpErr 404 "Score not found" ↔
       (updateFirst st.scores oid (⟨pn, sc⟩ : ScoreDoc)).1 = 0) ∧
    ((delete_sprite sid st).1 = .httpErr 404 "Sprite not found" ↔
       (deleteFirst st.sprites oid).1 = 0) ∧
    ((delete_audio sid st).1 = .httpErr 404 "Audio not found" ↔
       (deleteFirst st.audio oid).1 = 0) ∧
    ((delete_score sid st).1 = .httpErr 404 "Score not found" ↔
       (deleteFirst st.scores oid).1 = 0) := by
  refine ⟨?_, ?_, ?_, ?_, ?_, ?_⟩
  · by_cases h : (updateFirst st.sprites oid
        ⟨file.filename, b64encodeStr file.content, file.content_type⟩).1 = 0 <;>
      simp [update_sprite, hp, h]
  · by_cases h : (updateFirst st.audio oid
        ⟨file.filename, b64encodeStr file.content, file.content_type⟩).1 = 0 <;>
      simp [update_audio, hp, h]
  · by_cases h : (updateFirst st.scores oid (⟨pn, sc⟩ : ScoreDoc)).1 = 0 <;>
      simp [update_score, hp, h]
  · by_cases h : (deleteFirst st.sprites oid).1 = 0 <;> simp [delete_sprite, hp, h]
  · by_cases h : (deleteFirst st.audio oid).1 = 0 <;> simp [delete_audio, hp, h]
  · by_cases h : (deleteFirst st.scores oid).1 = 0 <;> simp [delete_score, hp, h]

/-- C8 (witness) on `sampleDB`, where all three records exist. -/
theorem notfound_iff_zero_count_witness :
    (((update_sprite "aaaaaaaaaaaaaaaaaaaaaaaa" sampleFile sampleDB).1 =
        .httpErr 404 "Sprite not found" ↔
       (updateFirst sampleDB.sprites oidA
         ⟨"a.png", b64encodeStr [137, 80, 78, 71], "image/png"⟩).1 = 0) ∧
     ((update_audio "aaaaaaaaaaaaaaaaaaaaaaaa" sampleFile sampleDB).1 =
        .httpErr 404 "Audio not found" ↔
       (updateFirst sampleDB.audio oidA
         ⟨"a.png", b64encodeStr [137, 80, 78, 71], "image/png"⟩).1 = 0) ∧
     ((update_score "aaaaaaaaaaaaaaaaaaaaaaaa" ⟨"Al", 5⟩ sampleDB).1 =
        .httpErr 404 "Score not found" ↔
       (updateFirst sampleDB.scores oidA (⟨"Al", 5⟩ : ScoreDoc)).1 = 0) ∧
     ((delete_sprite "aaaaaaaaaaaaaaaaaaaaaaaa" sampleDB).1 =
        .httpErr 404 "Sprite not found" ↔ (deleteFirst sampleDB.sprites oidA).1 = 0) ∧
     ((delete_audio "aaaaaaaaaaaaaaaaaaaaaaaa" sampleDB).1 =
        .httpErr 404 "Audio not found" ↔ (deleteFirst sampleDB.audio oidA).1 = 0) ∧
     ((delete_score "aaaaaaaaaaaaaaaaaaaaaaaa" sampleDB).1 =
        .httpErr 404 "Score not found" ↔ (deleteFirst sampleDB.scores oidA).1 = 0)) :=
  notfound_iff_zero_count "aaaaaaaaaaaaaaaaaaaaaaaa" oidA (by decide) sampleFile
    "Al" 5 sampleDB

/-- C9: each handler touches only the collection of its own resource kind —
for all twelve operations, the other two collections after the operation
equal the collections before it (reads leave the whole state unchanged). -/
theorem handlers_frame (genId : ObjectId) (file : FileUpload) (body : RawScoreBody)
    (sid : String) (sc : ScoreDoc) (st : DB) :
    (upload_sprite genId file st).2.audio = st.audio ∧
    (upload_sprite genId file st).2.scores = st.scores ∧
    (upload_audio genId file st).2.sprites = st.sprites ∧
    (upload_audio genId file st).2.scores = st.scores ∧
    (player_score_route genId body st).2.sprites = st.sprites ∧
    (player_score_route genId body st).2.audio = st.audio ∧
    (get_sprite sid st).2 = st ∧
    (get_audio sid st).2 = st ∧
    (get_score sid st).2 = st ∧
    (update_sprite sid file st).2.audio = st.audio ∧
    (update_sprite sid file st).2.scores = st.scores ∧
    (update_audio sid file st).2.sprites = st.sprites ∧
    (update_audio sid file st).2.scores = st.scores ∧
    (update_score sid sc st).2.sprites = st.sprites ∧
    (update_score sid sc st).2.audio = st.audio ∧
    (delete_sprite sid st).2.audio = st.audio ∧
    (delete_sprite sid st).2.scores = st.scores ∧
    (delete_audio sid st).2.sprites = st.sprites ∧
    (delete_audio sid st).2.scores = st.scores ∧
    (delete_score sid st).2.sprites = st.sprites ∧
    (delete_score sid st).2.audio = st.audio := by
  refine ⟨rfl, rfl, rfl, rfl, ?_, ?_, ?_, ?_, ?_, ?_, ?_, ?_, ?_, ?_, ?_, ?_, ?_, ?_, ?_,
    ?_, ?_⟩
  · cases hb2 : parsePlayerScore body <;> simp [player_score_route, add_score, hb2]
  · cases hb2 : parsePlayerScore body <;> simp [player_score_route, add_score, hb2]
  · cases hpid : ObjectId.parse sid <;> (simp [get_sprite, hpid]; try (split <;> rfl))
  · cases hpid : ObjectId.parse sid <;> (simp [get_audio, hpid]; try (split <;> rfl))
  · cases hpid : ObjectId.parse sid <;> (simp [get_score, hpid]; try (split <;> rfl))
  · cases hpid : ObjectId.parse sid <;> simp [update_sprite, hpid, snd_ite]
  · cases hpid : ObjectId.parse sid <;> simp [update_sprite, hpid, snd_ite]
  · cases hpid : ObjectId.parse sid <;> simp [update_audio, hpid, snd_ite]
  · cases hpid : ObjectId.parse sid <;> simp [update_audio, hpid, snd_ite]
  · cases hpid : ObjectId.parse sid <;> simp [update_score, hpid, snd_ite]
  · cases hpid : ObjectId.parse sid <;> simp [update_score, hpid, snd_ite]
  · cases hpid : ObjectId.parse sid <;> simp [delete_sprite, hpid, snd_ite]
  · cases hpid : ObjectId.parse sid <;> simp [delete_sprite, hpid, snd_ite]
  · cases hpid : ObjectId.parse sid <;> simp [delete_audio, hpid, snd_ite]
  · cases hpid : ObjectId.parse sid <;> simp [delete_audio, hpid, snd_ite]
  · cases hpid : ObjectId.parse sid <;> simp [delete_score, hpid, snd_ite]
  · cases hpid : ObjectId.parse sid <;> simp [delete_score, hpid, snd_ite]

end Main
